import Mathlib

/-!
Verification of the interactive SSH terminal-session manager
(`go_ssh/ssh.go`).  The Go source is shallowly embedded: pure
computations become Lean functions, and the effectful parts
(file system, network, terminal, the remote session) are passed in as
environments of `Except`-valued oracles.  Each function records the
externally visible calls it makes in a trace (a `List` of events), so
that ordering and absence properties of the source can be stated over
the trace.
-/

namespace GoSsh

/-! ### Data model (`ssh.go` lines 21-41) -/

/-- `Server` record from `ssh.go` lines 29-37 (JSON inventory entry). -/
structure Server where
  alias' : String
  address : String
  port : Int
  user : String
  password : String
  privateKey : String
  useKey : Bool
deriving DecidableEq

/-- `Config` record from `ssh.go` lines 39-41. -/
structure Config where
  servers : List Server
deriving DecidableEq

/-! ### Key-path resolution (`ssh.go` line 80)

`strings.Replace(server.PrivateKey, "~", homeDir, 1)` replaces the
first occurrence of `"~"` in the path - wherever it occurs - by the
home directory.  Since the pattern is the single character `~`, this
is a first-occurrence character replacement. -/

/-- First-occurrence replacement of `~` by `home` over the character
list of the path, the list-level core of Go's
`strings.Replace(path, "~", home, 1)`. -/
def replaceFirstTildeAux (home : List Char) : List Char → List Char
  | [] => []
  | c :: rest =>
    if c = '~' then home ++ rest else c :: replaceFirstTildeAux home rest

/-- `strings.Replace(s, "~", home, 1)` at `String` level. -/
def replaceFirstTilde (home s : String) : String :=
  String.mk (replaceFirstTildeAux home.data s.data)

/-- The `keyPath` computed at `ssh.go` line 80 from the current
process user's home directory and the configured private-key path. -/
def resolveKeyPath (home privateKey : String) : String :=
  replaceFirstTilde home privateKey

theorem replaceFirstTildeAux_no_tilde (home : List Char) :
    ∀ s : List Char, '~' ∉ s → replaceFirstTildeAux home s = s
  | [], _ => rfl
  | c :: rest, h => by
    have hc : ¬(c = '~') := fun hc => h (hc ▸ List.mem_cons_self c rest)
    simp only [replaceFirstTildeAux, if_neg hc]
    exact congrArg (c :: ·)
      (replaceFirstTildeAux_no_tilde home rest
        (fun hm => h (List.mem_cons_of_mem c hm)))

theorem replaceFirstTildeAux_first (home : List Char) :
    ∀ a b : List Char, '~' ∉ a →
      replaceFirstTildeAux home (a ++ '~' :: b) = a ++ home ++ b
  | [], b, _ => by simp [replaceFirstTildeAux]
  | c :: a, b, h => by
    have hc : ¬(c = '~') := fun hc => h (hc ▸ List.mem_cons_self c a)
    have ih := replaceFirstTildeAux_first home a b
      (fun hm => h (List.mem_cons_of_mem c hm))
    simp [replaceFirstTildeAux, if_neg hc, ih]

theorem string_data_eq {s t : String} (h : s.data = t.data) : s = t := by
  cases s
  cases t
  exact congrArg String.mk h

/-! ### Input-direction relay (`ssh.go` lines 210-228)

The relay repeatedly reads a chunk from local stdin and writes it to
the session's stdin pipe.  The loop is driven here by a list of read
outcomes; each write is an action, as is each error print.  The field
`t.exitMsg` becomes the `Option String` first component of the
result: the source sets it only on a write error (line 223), not on a
read error (lines 215-218). -/

/-- One iteration's observable input for the relay loop: the outcome
of `os.Stdin.Read` and, when a non-empty chunk was read, the outcome
of the `t.stdin.Write` call on it. -/
inductive RelayStep where
  | readFail (e : String)
  | emptyRead
  | chunk (data : String) (writeErr : Option String)
deriving DecidableEq

/-- Externally visible actions of the relay body. The source contains
no call that closes the session, so `closedSession` is never
emitted. -/
inductive RelayAction where
  | wrote (data : String)
  | printedErr (e : String)
  | closedSession
deriving DecidableEq

/-- The relay goroutine of `ssh.go` lines 211-228: returns the value
of `t.exitMsg` recorded by the relay (`none` = never set) and the
list of actions performed.  A read error prints and stops without
recording; a write error prints, records, and stops. -/
def inputRelay : List RelayStep → Option String × List RelayAction
  | [] => (none, [])
  | RelayStep.readFail e :: _ => (none, [RelayAction.printedErr e])
  | RelayStep.emptyRead :: rest => inputRelay rest
  | RelayStep.chunk d (some e) :: _ =>
      (some e, [RelayAction.wrote d, RelayAction.printedErr e])
  | RelayStep.chunk d none :: rest =>
      ((inputRelay rest).1, RelayAction.wrote d :: (inputRelay rest).2)

theorem inputRelay_never_closes :
    ∀ steps : List RelayStep,
      RelayAction.closedSession ∉ (inputRelay steps).2
  | [] => by simp [inputRelay]
  | RelayStep.readFail e :: rest => by simp [inputRelay]
  | RelayStep.emptyRead :: rest => by
      simpa [inputRelay] using inputRelay_never_closes rest
  | RelayStep.chunk d (some e) :: rest => by simp [inputRelay]
  | RelayStep.chunk d none :: rest => by
      simpa [inputRelay] using inputRelay_never_closes rest

/-- C2 counterexample: on a read error from local input the relay
stops after printing, but the error is NOT recorded as the Relay
Result (`t.exitMsg` stays unset, `ssh.go` lines 215-218), contrary to
the claim that every error on this path is recorded. -/
theorem C2_counterexample :
    (inputRelay [RelayStep.readFail "boom"]).1 ≠ some "boom" ∧
    (inputRelay [RelayStep.readFail "boom"]).1 = none := by
  exact ⟨by decide, rfl⟩

/-- C2 (amended): a write error to the Session's input stream is
recorded as the Relay Result and stops only this relay; a read error
from local input stops only this relay after being printed but is not
recorded; the relay never closes the Session.  (`ssh.go` lines
210-228: both error branches `return` from the relay goroutine alone,
and the result is independent of the remaining input `rest`.) -/
theorem C2_relay_result (e d : String) (rest steps : List RelayStep) :
    inputRelay (RelayStep.readFail e :: rest) =
      (none, [RelayAction.printedErr e]) ∧
    inputRelay (RelayStep.chunk d (some e) :: rest) =
      (some e, [RelayAction.wrote d, RelayAction.printedErr e]) ∧
    RelayAction.closedSession ∉ (inputRelay steps).2 :=
  ⟨rfl, rfl, inputRelay_never_closes steps⟩

/-! ### Resize watcher (`ssh.go` lines 113-150, `updateTerminalSize`)

Each `SIGWINCH` re-reads the terminal size (`term.GetSize`, whose
error status is `r.ok`).  If the re-read size equals the last-known
size the notification is a no-op (line 136); otherwise
`Session.WindowChange(currH, currW)` is issued (line 140), and the
last-known size is updated only when the re-read succeeded (the
`continue` at line 143 skips the update when `GetSize` errored). -/

/-- Result of the `term.GetSize` call performed on one window-change
notification: width, height, and whether the call succeeded. -/
structure SizeReading where
  w : Int
  h : Int
  ok : Bool
deriving DecidableEq

/-- Last-known terminal size held by the watcher. -/
structure TermSize where
  width : Int
  height : Int
deriving DecidableEq

/-- One iteration of the watcher loop: returns the new last-known
size and the list of `WindowChange(height, width)` requests issued
(empty or a singleton). -/
def updateTerminalSizeStep (last : TermSize) (r : SizeReading) :
    TermSize × List (Int × Int) :=
  if r.h = last.height ∧ r.w = last.width then (last, [])
  else if r.ok then (⟨r.w, r.h⟩, [(r.h, r.w)])
  else (last, [(r.h, r.w)])

/-- The watcher loop over a finite sequence of notifications. -/
def updateTerminalSizeRun (last : TermSize) :
    List SizeReading → TermSize × List (Int × Int)
  | [] => (last, [])
  | r :: rest =>
    let p := updateTerminalSizeStep last r
    let q := updateTerminalSizeRun p.1 rest
    (q.1, p.2 ++ q.2)

/-- C6: a notification whose re-read size equals the last-known size
issues no resize request; a notification whose size differs (and
whose re-read succeeded) issues exactly one request carrying the new
size, and an immediately following duplicate notification with that
same size issues none (`ssh.go` lines 133-146). -/
theorem C6_resize_dedup (last : TermSize) (r r2 : SizeReading)
    (hok : r.ok = true) :
    ((r.h = last.height ∧ r.w = last.width) →
      (updateTerminalSizeStep last r).2 = []) ∧
    (¬(r.h = last.height ∧ r.w = last.width) →
      (updateTerminalSizeStep last r).2 = [(r.h, r.w)] ∧
      ((r2.h = r.h ∧ r2.w = r.w) →
        (updateTerminalSizeStep (updateTerminalSizeStep last r).1 r2).2
          = [])) := by
  constructor
  · intro hEq
    simp [updateTerminalSizeStep, hEq]
  · intro hNe
    have h1 : updateTerminalSizeStep last r = (⟨r.w, r.h⟩, [(r.h, r.w)]) := by
      simp [updateTerminalSizeStep, hNe, hok]
    refine ⟨by rw [h1], ?_⟩
    intro hDup
    rw [h1]
    simp [updateTerminalSizeStep, hDup.1, hDup.2]

/-- C6 witness: spec scenario, last-known 80×24, notification
re-reads 120×40 successfully, duplicate notification repeats
120×40. -/
theorem C6_resize_dedup_witness :
    (SizeReading.mk 120 40 true).ok = true ∧
    ((((SizeReading.mk 120 40 true).h = (TermSize.mk 80 24).height ∧
       (SizeReading.mk 120 40 true).w = (TermSize.mk 80 24).width) →
      (updateTerminalSizeStep (TermSize.mk 80 24)
        (SizeReading.mk 120 40 true)).2 = []) ∧
     (¬((SizeReading.mk 120 40 true).h = (TermSize.mk 80 24).height ∧
        (SizeReading.mk 120 40 true).w = (TermSize.mk 80 24).width) →
      (updateTerminalSizeStep (TermSize.mk 80 24)
        (SizeReading.mk 120 40 true)).2
        = [((SizeReading.mk 120 40 true).h,
            (SizeReading.mk 120 40 true).w)] ∧
      (((SizeReading.mk 120 40 true).h = (SizeReading.mk 120 40 true).h ∧
        (SizeReading.mk 120 40 true).w = (SizeReading.mk 120 40 true).w) →
       (updateTerminalSizeStep
         (updateTerminalSizeStep (TermSize.mk 80 24)
           (SizeReading.mk 120 40 true)).1
         (SizeReading.mk 120 40 true)).2 = []))) :=
  ⟨rfl, C6_resize_dedup (TermSize.mk 80 24) (SizeReading.mk 120 40 true)
    (SizeReading.mk 120 40 true) rfl⟩

/-- C5 counterexample: with home directory `/home/op`, the path
`/a~b` - whose `~` is NOT leading - is rewritten to `/a/home/opb`
by `strings.Replace(path, "~", home, 1)` (`ssh.go` line 80), so the
rest of the path is not left unchanged as the claim states. -/
theorem C5_counterexample :
    resolveKeyPath "/home/op" "/a~b" = "/a/home/opb" ∧
    resolveKeyPath "/home/op" "/a~b" ≠ "/a~b" := by
  decide

/-- C5 (amended): the FIRST occurrence of `~` anywhere in the
private-key path is replaced by the current process user's home
directory (so a leading marker is resolved as claimed, and a path
without any marker is unchanged, but a non-leading first marker is
replaced too). -/
theorem C5_tilde_resolution (home a b s : String)
    (ha : '~' ∉ a.data) (hs : '~' ∉ s.data) :
    resolveKeyPath home (a ++ "~" ++ b) = a ++ home ++ b ∧
    resolveKeyPath home s = s := by
  constructor
  · apply string_data_eq
    show replaceFirstTildeAux home.data (a ++ "~" ++ b).data = _
    have hdata : (a ++ "~" ++ b).data = a.data ++ '~' :: b.data := by
      simp [String.data_append]
    rw [hdata, replaceFirstTildeAux_first home.data a.data b.data ha]
    simp [String.data_append]
  · apply string_data_eq
    show replaceFirstTildeAux home.data s.data = s.data
    exact replaceFirstTildeAux_no_tilde home.data s.data hs

/-- C5 witness: leading-marker path `~/.ssh/id_ed25519` resolves
against home `/home/op`, and `/etc/key` (no marker) is unchanged. -/
theorem C5_tilde_resolution_witness :
    '~' ∉ "".data ∧ '~' ∉ "/etc/key".data ∧
    (resolveKeyPath "/home/op" ("" ++ "~" ++ "/.ssh/id_ed25519") =
       "" ++ "/home/op" ++ "/.ssh/id_ed25519" ∧
     resolveKeyPath "/home/op" "/etc/key" = "/etc/key") :=
  ⟨by decide, by decide,
    C5_tilde_resolution "/home/op" "" "/.ssh/id_ed25519" "/etc/key"
      (by decide) (by decide)⟩

/-! ### The Terminal Controller (`ssh.go` lines 152-240,
`interactiveSession`)

The effectful calls of `interactiveSession` are provided by a
`TermEnv` of oracles, and the calls actually issued are recorded in a
trace.  Go `defer` semantics are modelled explicitly: the exit-message
print is registered first (lines 153-159) and `term.Restore` second
(line 166), so on any return after raw-mode entry succeeded the trace
ends with the restore followed by the final message; if
`term.MakeRaw` itself fails only the message print runs. -/

/-- Oracles for the effectful calls `interactiveSession` makes.
`relayMsg` is the value the input relay has stored in `t.exitMsg` by
teardown time (`""` when it never recorded anything). -/
structure TermEnv where
  makeRaw : Except String Nat
  getSize : Except String (Int × Int)
  termType : String
  requestPty : String → Int → Int → Except String Unit
  stdinPipe : Except String Unit
  stdoutPipe : Except String Unit
  stderrPipe : Except String Unit
  shell : Except String Unit
  sessionWait : Except String Unit
  relayMsg : String
  now : String

/-- Externally visible events of `interactiveSession`, in the order
the corresponding calls are issued.  `waitedInputRelay` is never
emitted: the wait group only counts the two output relays
(`wg.Add(2)`, lines 198-208). -/
inductive Ev where
  | rawEntered
  | ptyRequested (ttype : String) (h w : Int)
  | watcherStarted
  | stdinOpened
  | stdoutOpened
  | stderrOpened
  | inputRelayStarted
  | shellStarted
  | waitedOutputRelays
  | waitedInputRelay
  | askedRemoteExit
  | restored
  | finalMsg (m : String)
deriving DecidableEq

/-- The terminal type used for the PTY request (`ssh.go` lines
173-176): `$TERM`, defaulting to `xterm-256color` when unset. -/
def ttypeOf (env : TermEnv) : String :=
  if env.termType = "" then "xterm-256color" else env.termType

/-- The default final message of `ssh.go` line 155 (`fmt.Fprintln`
joins the two operands with a single space). -/
def defaultCloseMsg (now : String) : String :=
  "the connection was closed on the remote side on " ++ " " ++ now

/-- The single final message printed by the deferred function at
`ssh.go` lines 153-159. -/
def finalMessage (exitMsg now : String) : String :=
  if exitMsg = "" then defaultCloseMsg now else exitMsg

/-- `interactiveSession` (`ssh.go` lines 152-240): result and trace.
The deferred calls are appended on every return path: after raw-mode
entry succeeded, `Restore` then the message print; before it, only
the message print.  Return paths before the relay goroutine is
launched print with `t.exitMsg = ""`; later paths print whatever the
relay recorded (`relayMsg`). -/
def interactiveSession (env : TermEnv) : Except String Unit × List Ev :=
  match env.makeRaw with
  | Except.error e => (Except.error e, [Ev.finalMsg (finalMessage "" env.now)])
  | Except.ok _ =>
    match env.getSize with
    | Except.error e =>
      (Except.error e,
        [Ev.rawEntered, Ev.restored, Ev.finalMsg (finalMessage "" env.now)])
    | Except.ok (w, h) =>
      match env.requestPty (ttypeOf env) h w with
      | Except.error e =>
        (Except.error e,
          [Ev.rawEntered, Ev.ptyRequested (ttypeOf env) h w,
           Ev.restored, Ev.finalMsg (finalMessage "" env.now)])
      | Except.ok _ =>
        match env.stdinPipe with
        | Except.error e =>
          (Except.error e,
            [Ev.rawEntered, Ev.ptyRequested (ttypeOf env) h w,
             Ev.watcherStarted, Ev.stdinOpened,
             Ev.restored, Ev.finalMsg (finalMessage "" env.now)])
        | Except.ok _ =>
          match env.stdoutPipe with
          | Except.error e =>
            (Except.error e,
              [Ev.rawEntered, Ev.ptyRequested (ttypeOf env) h w,
               Ev.watcherStarted, Ev.stdinOpened, Ev.stdoutOpened,
               Ev.restored, Ev.finalMsg (finalMessage "" env.now)])
          | Except.ok _ =>
            match env.stderrPipe with
            | Except.error e =>
              (Except.error e,
                [Ev.rawEntered, Ev.ptyRequested (ttypeOf env) h w,
                 Ev.watcherStarted, Ev.stdinOpened, Ev.stdoutOpened,
                 Ev.stderrOpened,
                 Ev.restored, Ev.finalMsg (finalMessage "" env.now)])
            | Except.ok _ =>
              match env.shell with
              | Except.error e =>
                (Except.error e,
                  [Ev.rawEntered, Ev.ptyRequested (ttypeOf env) h w,
                   Ev.watcherStarted, Ev.stdinOpened, Ev.stdoutOpened,
                   Ev.stderrOpened, Ev.inputRelayStarted, Ev.shellStarted,
                   Ev.restored,
                   Ev.finalMsg (finalMessage env.relayMsg env.now)])
              | Except.ok _ =>
                (env.sessionWait,
                  [Ev.rawEntered, Ev.ptyRequested (ttypeOf env) h w,
                   Ev.watcherStarted, Ev.stdinOpened, Ev.stdoutOpened,
                   Ev.stderrOpened, Ev.inputRelayStarted, Ev.shellStarted,
                   Ev.waitedOutputRelays, Ev.askedRemoteExit,
                   Ev.restored,
                   Ev.finalMsg (finalMessage env.relayMsg env.now)])

/-- Number of `term.Restore` calls in a trace. -/
def countRestored : List Ev → Nat
  | [] => 0
  | Ev.restored :: rest => countRestored rest + 1
  | _ :: rest => countRestored rest

/-- Whether raw-mode entry succeeded (and the prior terminal state
snapshot was recorded) in a trace. -/
def hasRawEntered : List Ev → Bool
  | [] => false
  | Ev.rawEntered :: _ => true
  | _ :: rest => hasRawEntered rest

/-- Whether the input-direction relay goroutine was launched. -/
def relayStartedIn : List Ev → Bool
  | [] => false
  | Ev.inputRelayStarted :: _ => true
  | _ :: rest => relayStartedIn rest

/-- The final messages printed in a trace. -/
def finalMsgs : List Ev → List String
  | [] => []
  | Ev.finalMsg m :: rest => m :: finalMsgs rest
  | _ :: rest => finalMsgs rest

/-- Whether the controller ever waited on the input-direction relay. -/
def hasWaitedInputRelay : List Ev → Bool
  | [] => false
  | Ev.waitedInputRelay :: _ => true
  | _ :: rest => hasWaitedInputRelay rest

/-- `Except.isOk` spelled out for the oracle results. -/
def exceptOk {ε α : Type} : Except ε α → Bool
  | Except.ok _ => true
  | Except.error _ => false

/-- C7: on every exit path, the terminal state snapshot is restored
exactly once when raw-mode entry succeeded and never when it failed;
and the snapshot is recorded (raw mode entered) exactly when
`term.MakeRaw` succeeded (`ssh.go` lines 161-166: the `Restore` defer
is registered only after `MakeRaw` returns without error). -/
theorem C7_restore_once (env : TermEnv) :
    countRestored (interactiveSession env).2 =
      (if exceptOk env.makeRaw then 1 else 0) ∧
    hasRawEntered (interactiveSession env).2 = exceptOk env.makeRaw := by
  cases hR : env.makeRaw with
  | error e =>
    simp [interactiveSession, hR, countRestored, hasRawEntered, exceptOk]
  | ok st =>
    cases hS : env.getSize with
    | error e =>
      simp [interactiveSession, hR, hS, countRestored, hasRawEntered,
        exceptOk]
    | ok p =>
      obtain ⟨w, h⟩ := p
      cases hP : env.requestPty (ttypeOf env) h w with
      | error e =>
        simp [interactiveSession, hR, hS, hP, countRestored, hasRawEntered,
          exceptOk]
      | ok u =>
        cases h1 : env.stdinPipe with
        | error e =>
          simp [interactiveSession, hR, hS, hP, h1, countRestored,
            hasRawEntered, exceptOk]
        | ok u1 =>
          cases h2 : env.stdoutPipe with
          | error e =>
            simp [interactiveSession, hR, hS, hP, h1, h2, countRestored,
              hasRawEntered, exceptOk]
          | ok u2 =>
            cases h3 : env.stderrPipe with
            | error e =>
              simp [interactiveSession, hR, hS, hP, h1, h2, h3,
                countRestored, hasRawEntered, exceptOk]
            | ok u3 =>
              cases hSh : env.shell with
              | error e =>
                simp [interactiveSession, hR, hS, hP, h1, h2, h3, hSh,
                  countRestored, hasRawEntered, exceptOk]
              | ok u4 =>
                simp [interactiveSession, hR, hS, hP, h1, h2, h3, hSh,
                  countRestored, hasRawEntered, exceptOk]

/-- C8: exactly one final message is produced at session end - the
recorded Relay Result when the relay recorded one, otherwise the
default closed-by-remote-side message carrying the timestamp
(`ssh.go` lines 152-159; `finalMessage` falls back to
`defaultCloseMsg env.now` exactly when the recorded message is
empty, and paths on which the relay was never launched print with an
empty recorded message). -/
theorem C8_final_message (env : TermEnv) :
    finalMsgs (interactiveSession env).2 =
      [finalMessage
        (if relayStartedIn (interactiveSession env).2
         then env.relayMsg else "")
        env.now] := by
  cases hR : env.makeRaw with
  | error e => simp [interactiveSession, hR, finalMsgs, relayStartedIn]
  | ok st =>
    cases hS : env.getSize with
    | error e =>
      simp [interactiveSession, hR, hS, finalMsgs, relayStartedIn]
    | ok p =>
      obtain ⟨w, h⟩ := p
      cases hP : env.requestPty (ttypeOf env) h w with
      | error e =>
        simp [interactiveSession, hR, hS, hP, finalMsgs, relayStartedIn]
      | ok u =>
        cases h1 : env.stdinPipe with
        | error e =>
          simp [interactiveSession, hR, hS, hP, h1, finalMsgs,
            relayStartedIn]
        | ok u1 =>
          cases h2 : env.stdoutPipe with
          | error e =>
            simp [interactiveSession, hR, hS, hP, h1, h2, finalMsgs,
              relayStartedIn]
          | ok u2 =>
            cases h3 : env.stderrPipe with
            | error e =>
              simp [interactiveSession, hR, hS, hP, h1, h2, h3, finalMsgs,
                relayStartedIn]
            | ok u3 =>
              cases hSh : env.shell with
              | error e =>
                simp [interactiveSession, hR, hS, hP, h1, h2, h3, hSh,
                  finalMsgs, relayStartedIn]
              | ok u4 =>
                simp [interactiveSession, hR, hS, hP, h1, h2, h3, hSh,
                  finalMsgs, relayStartedIn]

/-- C9: on a fully successful setup the trace is exactly the PTY
request, then the watcher start, then the three stream openings, then
the shell start, then the wait for the two output-direction relays,
then the remote-exit query, then teardown - so the PTY request
precedes the stream openings, the stream openings precede the shell
start, and the output-relay wait precedes the remote-exit query; the
input-direction relay is never waited on (`ssh.go` lines 178-238). -/
theorem C9_ordering (env : TermEnv) (st : Nat) (w h : Int)
    (hR : env.makeRaw = Except.ok st)
    (hS : env.getSize = Except.ok (w, h))
    (hP : env.requestPty (ttypeOf env) h w = Except.ok ())
    (h1 : env.stdinPipe = Except.ok ())
    (h2 : env.stdoutPipe = Except.ok ())
    (h3 : env.stderrPipe = Except.ok ())
    (hSh : env.shell = Except.ok ()) :
    (interactiveSession env).2 =
      [Ev.rawEntered, Ev.ptyRequested (ttypeOf env) h w,
       Ev.watcherStarted, Ev.stdinOpened, Ev.stdoutOpened,
       Ev.stderrOpened, Ev.inputRelayStarted, Ev.shellStarted,
       Ev.waitedOutputRelays, Ev.askedRemoteExit,
       Ev.restored, Ev.finalMsg (finalMessage env.relayMsg env.now)] ∧
    hasWaitedInputRelay (interactiveSession env).2 = false := by
  simp [interactiveSession, hR, hS, hP, h1, h2, h3, hSh,
    hasWaitedInputRelay]

/-- Environment in which every stage of the interactive session
succeeds, used to instantiate the hypothesis-bearing theorems. -/
def termEnvOk : TermEnv where
  makeRaw := Except.ok 0
  getSize := Except.ok (80, 24)
  termType := ""
  requestPty := fun _ _ _ => Except.ok ()
  stdinPipe := Except.ok ()
  stdoutPipe := Except.ok ()
  stderrPipe := Except.ok ()
  shell := Except.ok ()
  sessionWait := Except.ok ()
  relayMsg := ""
  now := "11 Oct 26 12:00 UTC"

/-- C9 witness: in `termEnvOk` every stage succeeds and the trace is
the canonical ordered one, with no wait on the input relay. -/
theorem C9_ordering_witness :
    termEnvOk.makeRaw = Except.ok 0 ∧
    termEnvOk.getSize = Except.ok (80, 24) ∧
    termEnvOk.requestPty (ttypeOf termEnvOk) 24 80 = Except.ok () ∧
    termEnvOk.stdinPipe = Except.ok () ∧
    termEnvOk.stdoutPipe = Except.ok () ∧
    termEnvOk.stderrPipe = Except.ok () ∧
    termEnvOk.shell = Except.ok () ∧
    ((interactiveSession termEnvOk).2 =
      [Ev.rawEntered, Ev.ptyRequested (ttypeOf termEnvOk) 24 80,
       Ev.watcherStarted, Ev.stdinOpened, Ev.stdoutOpened,
       Ev.stderrOpened, Ev.inputRelayStarted, Ev.shellStarted,
       Ev.waitedOutputRelays, Ev.askedRemoteExit,
       Ev.restored,
       Ev.finalMsg (finalMessage termEnvOk.relayMsg termEnvOk.now)] ∧
     hasWaitedInputRelay (interactiveSession termEnvOk).2 = false) :=
  ⟨rfl, rfl, rfl, rfl, rfl, rfl, rfl,
    C9_ordering termEnvOk 0 80 24 rfl rfl rfl rfl rfl rfl rfl⟩

/-! ### Transport Connector (`ssh.go` lines 67-111,
`connectToServer`) -/

/-- An entry of the `ssh.ClientConfig.Auth` method list.  A parsed
private key is carried as its signer's representation. -/
inductive AuthMethod where
  | publicKeys (key : String)
  | password (pw : String)
deriving DecidableEq

/-- Externally visible calls made by `connectToServer`; `dialed`
carries the address string and the authentication method list the
dial was attempted with. -/
inductive ConnEvent where
  | dialed (addr : String) (auth : List AuthMethod)
  | sessionCreated
  | ranInteractive
deriving DecidableEq

/-- Oracles for the effectful calls of `connectToServer`. -/
structure ConnEnv where
  currentUserHome : Except String String
  readFile : String → Except String String
  parsePrivateKey : String → Except String String
  dial : String → List AuthMethod → Except String Unit
  newSession : Except String Unit
  term : TermEnv

/-- The `address:port` string of `ssh.go` line 95. -/
def addressOf (server : Server) : String :=
  server.address ++ ":" ++ toString server.port

/-- `ssh.go` lines 95-110: dial with the built method list, open one
session, then run the interactive session. -/
def dialAndRun (env : ConnEnv) (server : Server)
    (auth : List AuthMethod) : Except String Unit × List ConnEvent :=
  match env.dial (addressOf server) auth with
  | Except.error e =>
    (Except.error ("failed to connect to server " ++ addressOf server
        ++ ": " ++ e),
      [ConnEvent.dialed (addressOf server) auth])
  | Except.ok _ =>
    match env.newSession with
    | Except.error e =>
      (Except.error ("failed to create session on server "
          ++ addressOf server ++ ": " ++ e),
        [ConnEvent.dialed (addressOf server) auth,
         ConnEvent.sessionCreated])
    | Except.ok _ =>
      ((interactiveSession env.term).1,
        [ConnEvent.dialed (addressOf server) auth,
         ConnEvent.sessionCreated, ConnEvent.ranInteractive])

/-- `connectToServer` (`ssh.go` lines 67-111).  The `Auth` list is
built from the auth kind: key authentication alone when `UseKey` is
set (after reading and parsing the key file, each failure returning
before any dial), password authentication alone when a non-empty
password is configured, the empty list otherwise. -/
def connectToServer (env : ConnEnv) (server : Server) :
    Except String Unit × List ConnEvent :=
  if server.useKey then
    match env.currentUserHome with
    | Except.error e =>
      (Except.error ("failed to get home directory: " ++ e), [])
    | Except.ok home =>
      match env.readFile (resolveKeyPath home server.privateKey) with
      | Except.error e =>
        (Except.error ("failed to read private key "
            ++ resolveKeyPath home server.privateKey ++ ": " ++ e), [])
      | Except.ok keyBytes =>
        match env.parsePrivateKey keyBytes with
        | Except.error e =>
          (Except.error ("failed to parse private key "
              ++ resolveKeyPath home server.privateKey ++ ": " ++ e), [])
        | Except.ok signer =>
          dialAndRun env server [AuthMethod.publicKeys signer]
  else if server.password ≠ "" then
    dialAndRun env server [AuthMethod.password server.password]
  else
    dialAndRun env server []

theorem dialAndRun_dialed_eq (env : ConnEnv) (server : Server)
    (auth : List AuthMethod) (addr : String) (l : List AuthMethod)
    (hmem : ConnEvent.dialed addr l ∈ (dialAndRun env server auth).2) :
    addr = addressOf server ∧ l = auth := by
  unfold dialAndRun at hmem
  cases hD : env.dial (addressOf server) auth with
  | error e =>
    rw [hD] at hmem
    simp at hmem
    exact hmem
  | ok u =>
    rw [hD] at hmem
    cases hN : env.newSession with
    | error e =>
      rw [hN] at hmem
      simp at hmem
      exact hmem
    | ok v =>
      rw [hN] at hmem
      simp at hmem
      exact hmem

/-- C3: the authentication method list passed to the dial is built
exclusively from the auth kind (`ssh.go` lines 75-92): key
authentication alone when `UseKey` is set (the configured password is
never added), password authentication alone when `UseKey` is unset
and the password is non-empty, and the empty list otherwise - and
`connectToServer` is a total function on that empty list, so dialing
with it cannot fail locally. -/
theorem C3_auth_exclusive (env : ConnEnv) (server : Server)
    (addr : String) (auth : List AuthMethod)
    (hmem : ConnEvent.dialed addr auth ∈ (connectToServer env server).2) :
    (server.useKey = true →
      (∃ signer, auth = [AuthMethod.publicKeys signer]) ∧
      ∀ pw, AuthMethod.password pw ∉ auth) ∧
    (server.useKey = false → server.password ≠ "" →
      auth = [AuthMethod.password server.password]) ∧
    (server.useKey = false → server.password = "" → auth = []) := by
  cases hk : server.useKey with
  | true =>
    cases hH : env.currentUserHome with
    | error e => simp [connectToServer, hk, hH] at hmem
    | ok home =>
      cases hF : env.readFile (resolveKeyPath home server.privateKey) with
      | error e => simp [connectToServer, hk, hH, hF] at hmem
      | ok keyBytes =>
        cases hK : env.parsePrivateKey keyBytes with
        | error e => simp [connectToServer, hk, hH, hF, hK] at hmem
        | ok signer =>
          simp only [connectToServer, hk, hH, hF, hK, if_true] at hmem
          have heq := dialAndRun_dialed_eq env server
            [AuthMethod.publicKeys signer] addr auth hmem
          refine ⟨fun _ => ⟨⟨signer, heq.2⟩, ?_⟩,
            fun hfalse => ?_, fun hfalse => ?_⟩
          · intro pw hpw
            rw [heq.2] at hpw
            simp at hpw
          · exact Bool.noConfusion hfalse
          · exact Bool.noConfusion hfalse
  | false =>
    by_cases hpw : server.password = ""
    · have hcond : ¬(server.password ≠ "") := fun hne => hne hpw
      simp only [connectToServer, hk, Bool.false_eq_true, if_false,
        if_neg hcond] at hmem
      have heq := dialAndRun_dialed_eq env server [] addr auth hmem
      exact ⟨fun htrue => Bool.noConfusion htrue,
        fun _ hne => absurd hpw hne, fun _ _ => heq.2⟩
    · simp only [connectToServer, hk, Bool.false_eq_true, if_false,
        if_pos hpw] at hmem
      have heq := dialAndRun_dialed_eq env server
        [AuthMethod.password server.password] addr auth hmem
      exact ⟨fun htrue => Bool.noConfusion htrue,
        fun _ _ => heq.2, fun _ hemp => absurd hemp hpw⟩

/-- C4: with auth kind key, an unreadable key file makes
`connectToServer` fail with the read-key error and an unparsable key
makes it fail with the parse-key error, and in both cases the trace
is empty - in particular no dial is attempted (`ssh.go` lines 75-97:
both error branches return before `ssh.Dial` is reached). -/
theorem C4_key_error_no_dial (env : ConnEnv) (server : Server)
    (home : String) (hk : server.useKey = true)
    (hh : env.currentUserHome = Except.ok home) :
    (∀ e, env.readFile (resolveKeyPath home server.privateKey) =
        Except.error e →
      (connectToServer env server).1 =
        Except.error ("failed to read private key "
          ++ resolveKeyPath home server.privateKey ++ ": " ++ e) ∧
      (connectToServer env server).2 = []) ∧
    (∀ keyBytes e,
      env.readFile (resolveKeyPath home server.privateKey) =
        Except.ok keyBytes →
      env.parsePrivateKey keyBytes = Except.error e →
      (connectToServer env server).1 =
        Except.error ("failed to parse private key "
          ++ resolveKeyPath home server.privateKey ++ ": " ++ e) ∧
      (connectToServer env server).2 = []) := by
  constructor
  · intro e hre
    simp [connectToServer, hk, hh, hre]
  · intro keyBytes e hro hpe
    simp [connectToServer, hk, hh, hro, hpe]

/-! ### Concrete environments used by the witnesses -/

/-- A connection environment whose dial is refused and whose key
reads fail; the terminal oracle is `termEnvOk`. -/
def connEnvRefused : ConnEnv where
  currentUserHome := Except.ok "/root"
  readFile := fun _ => Except.error "no such file or directory"
  parsePrivateKey := fun _ => Except.error "ssh: no key found"
  dial := fun _ _ => Except.error "connection refused"
  newSession := Except.ok ()
  term := termEnvOk

/-- Target with neither key auth nor a configured password. -/
def serverNoAuth : Server where
  alias' := "db1"
  address := "10.0.0.5"
  port := 22
  user := "ops"
  password := ""
  privateKey := ""
  useKey := false

/-- Target with key auth and an unreadable key path. -/
def serverKey : Server where
  alias' := "db1"
  address := "10.0.0.5"
  port := 22
  user := "ops"
  password := "secret"
  privateKey := "~/.ssh/id_ed25519"
  useKey := true

/-- C3 witness: a target with `UseKey` unset and an empty password
dials with the empty method list, as computed on the trace of
`connectToServer` in `connEnvRefused`. -/
theorem C3_auth_exclusive_witness :
    ConnEvent.dialed "10.0.0.5:22" [] ∈
      (connectToServer connEnvRefused serverNoAuth).2 ∧
    ((serverNoAuth.useKey = true →
       (∃ signer, ([] : List AuthMethod) =
          [AuthMethod.publicKeys signer]) ∧
       ∀ pw, AuthMethod.password pw ∉ ([] : List AuthMethod)) ∧
     (serverNoAuth.useKey = false → serverNoAuth.password ≠ "" →
       ([] : List AuthMethod) =
         [AuthMethod.password serverNoAuth.password]) ∧
     (serverNoAuth.useKey = false → serverNoAuth.password = "" →
       ([] : List AuthMethod) = [])) :=
  ⟨by decide,
    C3_auth_exclusive connEnvRefused serverNoAuth "10.0.0.5:22" []
      (by decide)⟩

/-- C4 witness: `serverKey` in `connEnvRefused` fails with the
read-key error for its resolved path and attempts no dial. -/
theorem C4_key_error_no_dial_witness :
    serverKey.useKey = true ∧
    connEnvRefused.currentUserHome = Except.ok "/root" ∧
    connEnvRefused.readFile
        (resolveKeyPath "/root" serverKey.privateKey) =
      Except.error "no such file or directory" ∧
    ((connectToServer connEnvRefused serverKey).1 =
      Except.error ("failed to read private key "
        ++ resolveKeyPath "/root" serverKey.privateKey
        ++ ": " ++ "no such file or directory") ∧
     (connectToServer connEnvRefused serverKey).2 = []) :=
  ⟨rfl, rfl, rfl,
    (C4_key_error_no_dial connEnvRefused serverKey "/root" rfl rfl).1
      "no such file or directory" rfl⟩

/-! ### CLI entry point (`ssh.go` lines 242-304, `main`)

`main` never calls `os.Exit`: every failure path prints a message and
falls off the end of `main`, which the Go runtime turns into exit
status 0.  The only way to terminate with a non-zero status is the
runtime panic raised by `config.Servers[0]` on an empty server list
(line 295). -/

/-- How the process terminates: a normal return from `main` (exit
status 0 - there is no `os.Exit` call in the source) or a runtime
panic (non-zero status). -/
inductive ExitOutcome where
  | exited (code : Nat)
  | panicked
deriving DecidableEq

/-- Inputs of `main`: the config-load result, the two selector flags,
the line read by the interactive prompt, and the connection
environment used by `connectToServer`. -/
structure MainEnv where
  loadConfig : Except String Config
  aliasFlag : String
  ipFlag : String
  interactiveChoice : String
  conn : ConnEnv

/-- Server selection of `ssh.go` lines 256-291: flag lookup
(case-insensitive alias, then exact address), then - whenever the
flags produced nothing - the interactive prompt matched
case-insensitively against the trimmed, lowercased input line. -/
def selectServer (cfg : Config) (aliasFlag ipFlag choice : String) :
    Option Server :=
  let byFlag : Option Server :=
    if aliasFlag ≠ "" then
      cfg.servers.find? (fun s => s.alias'.toLower == aliasFlag.toLower)
    else if ipFlag ≠ "" then
      cfg.servers.find? (fun s => s.address == ipFlag)
    else none
  match byFlag with
  | some s => some s
  | none =>
    cfg.servers.find?
      (fun s => s.alias'.toLower == choice.trim.toLower)

/-- `main` (`ssh.go` lines 242-304).  A config-load error prints and
returns (exit 0); otherwise the selected server - or the unguarded
`config.Servers[0]` fallback of line 295, which panics on an empty
list - is connected to, and `main` returns normally whether or not
`connectToServer` failed (the error is only printed, lines
300-303). -/
def main (env : MainEnv) : ExitOutcome :=
  match env.loadConfig with
  | Except.error _ => ExitOutcome.exited 0
  | Except.ok cfg =>
    match selectServer cfg env.aliasFlag env.ipFlag
        env.interactiveChoice with
    | some s =>
      let _ := connectToServer env.conn s
      ExitOutcome.exited 0
    | none =>
      match cfg.servers with
      | [] => ExitOutcome.panicked
      | s :: _ =>
        let _ := connectToServer env.conn s
        ExitOutcome.exited 0

/-- A `MainEnv` whose config load fails (missing file): every stage
after it is never reached. -/
def mainEnvNoConfig : MainEnv where
  loadConfig := Except.error "open config.json: no such file or directory"
  aliasFlag := ""
  ipFlag := ""
  interactiveChoice := ""
  conn := connEnvRefused

/-- C1 counterexample: when loading the configuration file fails -
a failing stage - `main` prints the cause and returns normally, so
the process exit status is 0, not non-zero as the claim requires
(`ssh.go` lines 250-254: `fmt.Println(...); return`). -/
theorem C1_counterexample :
    main mainEnvNoConfig = ExitOutcome.exited 0 := rfl

/-- C1 (amended): the process exit status is 0 on every run on which
`main` returns - including runs where a stage (config load, resolve,
connect, authenticate, PTY, shell start, remote exit) fails, the
cause being only printed - and the sole non-zero termination is the
runtime panic of the empty-inventory fallback. -/
theorem C1_exit_zero (env : MainEnv)
    (hnp : main env ≠ ExitOutcome.panicked) :
    main env = ExitOutcome.exited 0 := by
  cases hc : env.loadConfig with
  | error e => simp [main, hc]
  | ok cfg =>
    cases hsel : selectServer cfg env.aliasFlag env.ipFlag
        env.interactiveChoice with
    | some s => simp [main, hc, hsel]
    | none =>
      cases hs : cfg.servers with
      | nil =>
        exact absurd (by simp [main, hc, hsel, hs]) hnp
      | cons s rest => simp [main, hc, hsel, hs]

/-- C1 witness: a run with a failed config load is not a panic, and
its exit status is 0. -/
theorem C1_exit_zero_witness :
    main mainEnvNoConfig ≠ ExitOutcome.panicked ∧
    main mainEnvNoConfig = ExitOutcome.exited 0 :=
  ⟨by decide, C1_exit_zero mainEnvNoConfig (by decide)⟩

/-- C10: when the loaded configuration has an empty server list, no
selector can match, so the default-to-first-server fallback of
`ssh.go` line 295 indexes an empty slice and `main` panics; with a
non-empty server list `main` never panics, so a non-empty list is a
precondition for the fallback to be well-defined. -/
theorem C10_empty_panics (env : MainEnv) (cfg : Config)
    (hc : env.loadConfig = Except.ok cfg) :
    (cfg.servers = [] → main env = ExitOutcome.panicked) ∧
    (cfg.servers ≠ [] → main env ≠ ExitOutcome.panicked) := by
  constructor
  · intro hemp
    simp [main, hc, selectServer, hemp]
  · intro hne
    cases hsel : selectServer cfg env.aliasFlag env.ipFlag
        env.interactiveChoice with
    | some s => simp [main, hc, hsel]
    | none =>
      cases hs : cfg.servers with
      | nil => exact absurd hs hne
      | cons s rest => simp [main, hc, hsel, hs]

/-- Configuration with an empty server inventory. -/
def emptyConfig : Config where
  servers := []

/-- A `MainEnv` that loads `emptyConfig` with no selector flags. -/
def mainEnvEmpty : MainEnv where
  loadConfig := Except.ok emptyConfig
  aliasFlag := ""
  ipFlag := ""
  interactiveChoice := ""
  conn := connEnvRefused

/-- C10 witness: loading an empty inventory makes `main` panic, and
a one-server inventory cannot make it panic. -/
theorem C10_empty_panics_witness :
    mainEnvEmpty.loadConfig = Except.ok emptyConfig ∧
    ((emptyConfig.servers = [] →
       main mainEnvEmpty = ExitOutcome.panicked) ∧
     (emptyConfig.servers ≠ [] →
       main mainEnvEmpty ≠ ExitOutcome.panicked)) :=
  ⟨rfl, C10_empty_panics mainEnvEmpty emptyConfig rfl⟩

end GoSsh
